import Mathlib

/-!
Shallow embedding of the KPI computation and status-classification engine of
the invoicing dashboard (source: src/invoicing_dashboard_streamlit.py).

Numbers are modelled as rationals: the source manipulates Python/pandas
numerics, and every literal appearing in the engine (targets, the 1.1 and 0.9
band factors, the sample data) is exactly representable, so ℚ is a faithful
exact model of the arithmetic the spec describes.

A pandas DataFrame row is modelled as a record with the 26 required columns;
a DataFrame is a list of such records plus, for the loader, the list of
column names actually present in the uploaded sheet.  `data.iloc[month_idx]`
is modelled by `iloc`, which follows pandas positional-indexing semantics:
a negative index counts from the end, and an index outside
`[-len, len)` raises (here: `none`, turned into an error by
`calculate_kpis`).
-/

/-- One monthly record: the 26 columns required by `validate_excel_data`
(source lines 99-108), field names as in the spec's data model. -/
structure MonthlyRecord where
  month : ℚ
  total_invoices : ℚ
  on_time_invoices : ℚ
  avg_billing_timeliness : ℚ
  avg_invoice_cycle_time : ℚ
  planned_milestones : ℚ
  invoiced_milestones : ℚ
  corrected_invoices : ℚ
  reissued_invoices : ℚ
  disputed_invoices : ℚ
  avg_dispute_resolution_days : ℚ
  recognized_revenue : ℚ
  invoiced_amount : ℚ
  co_approved : ℚ
  co_invoiced : ℚ
  advance_received : ℚ
  advance_used : ℚ
  wip : ℚ
  avg_daily_billed_revenue : ℚ
  old_wip : ℚ
  monthly_revenue : ℚ
  submitted_packages : ℚ
  returned_packages : ℚ
  avg_pm_approval_days : ℚ
  total_cost_reports : ℚ
  late_cost_reports : ℚ
deriving DecidableEq

/-- Error taxonomy of the spec (section 7): schema validation failure carrying
the missing column names, and month index out of range. -/
inductive DashboardError where
  | schemaValidation (missing : List String) : DashboardError
  | indexOutOfRange : DashboardError
deriving DecidableEq

/-- pandas `data.iloc[i]` positional indexing on a list of rows: valid for
`-len ≤ i < len`, negative indices counting from the end. -/
def iloc (data : List MonthlyRecord) (i : Int) : Option MonthlyRecord :=
  if h : 0 ≤ i ∧ i < (data.length : Int) then
    some (data.get ⟨i.toNat, by omega⟩)
  else if h2 : -(data.length : Int) ≤ i ∧ i < 0 then
    some (data.get ⟨(i + data.length).toNat, by omega⟩)
  else
    none

/-- The 18 KPI values computed from one row, in source order
(`calculate_kpis` body, source lines 151-179). -/
def kpisOfRow (row : MonthlyRecord) : List (String × ℚ) :=
  [ ("billing_timeliness_days", row.avg_billing_timeliness),
    ("pct_invoices_on_time", row.on_time_invoices / row.total_invoices * 100),
    ("invoice_cycle_time", row.avg_invoice_cycle_time),
    ("missed_milestones", row.planned_milestones - row.invoiced_milestones),
    ("invoice_error_rate", row.corrected_invoices / row.total_invoices * 100),
    ("invoice_reissue_rate", row.reissued_invoices / row.total_invoices * 100),
    ("disputed_invoice_pct", row.disputed_invoices / row.total_invoices * 100),
    ("dispute_resolution_days", row.avg_dispute_resolution_days),
    ("billing_coverage_pct", row.invoiced_amount / row.recognized_revenue * 100),
    ("unbilled_revenue_pct",
      (row.recognized_revenue - row.invoiced_amount) / row.recognized_revenue * 100),
    ("co_billing_rate", row.co_invoiced / row.co_approved * 100),
    ("advance_drawdown_rate", row.advance_used / row.advance_received * 100),
    ("wip_aging_days", row.wip / row.avg_daily_billed_revenue),
    ("stale_wip_pct", row.old_wip / row.wip * 100),
    ("wip_to_revenue_ratio", row.wip / row.monthly_revenue),
    ("pm_approval_days", row.avg_pm_approval_days),
    ("incomplete_packages_pct",
      row.returned_packages / row.submitted_packages * 100),
    ("late_cost_inputs_pct", row.late_cost_reports / row.total_cost_reports * 100) ]

/-- The 18 derivation keys in source order. -/
def kpiKeys : List String :=
  [ "billing_timeliness_days", "pct_invoices_on_time", "invoice_cycle_time",
    "missed_milestones", "invoice_error_rate", "invoice_reissue_rate",
    "disputed_invoice_pct", "dispute_resolution_days", "billing_coverage_pct",
    "unbilled_revenue_pct", "co_billing_rate", "advance_drawdown_rate",
    "wip_aging_days", "stale_wip_pct", "wip_to_revenue_ratio",
    "pm_approval_days", "incomplete_packages_pct", "late_cost_inputs_pct" ]

/-- `calculate_kpis(data, month_idx)` (source lines 147-181): selects
`row = data.iloc[month_idx]` and returns the KPI mapping; an out-of-bounds
positional index raises, modelled as `DashboardError.indexOutOfRange`. -/
def calculate_kpis (data : List MonthlyRecord) (month_idx : Int) :
    Except DashboardError (List (String × ℚ)) :=
  match iloc data month_idx with
  | some row => Except.ok (kpisOfRow row)
  | none => Except.error DashboardError.indexOutOfRange

/-- `get_status(value, target, comparison)` (source lines 183-198): the
traffic-light classifier, returning the (icon, css-class) pair of the source.
Any comparison string other than the literal `"<="` takes the else branch. -/
def get_status (value target : ℚ) (comparison : String) : String × String :=
  if comparison = "<=" then
    if value ≤ target then ("🟢", "success")
    else if value ≤ target * 1.1 then ("🟠", "warning")
    else ("🔴", "error")
  else
    if value ≥ target then ("🟢", "success")
    else if value ≥ target * 0.9 then ("🟠", "warning")
    else ("🔴", "error")

/-- The else branch of `get_status` in isolation (the `'>='` classification,
source lines 192-198), used to state that unrecognized comparison strings are
handled by that branch. -/
def atLeastBranch (value target : ℚ) : String × String :=
  if value ≥ target then ("🟢", "success")
  else if value ≥ target * 0.9 then ("🟠", "warning")
  else ("🔴", "error")

/-- One KPI catalog entry (source dict literal fields: name, key, target,
comparison, priority defaulting to false). -/
structure KpiDef where
  name : String
  key : String
  target : ℚ
  comparison : String
  priority : Bool := false
deriving DecidableEq

/-- The `kpi_definitions` catalog (source lines 204-233), category order and
within-category order as in the source. -/
def kpi_definitions : List (String × List KpiDef) :=
  [ ("timeliness",
      [ { name := "Billing Timeliness (Days)", key := "billing_timeliness_days",
          target := 5, comparison := "<=", priority := true },
        { name := "% Invoices Issued on Time", key := "pct_invoices_on_time",
          target := 95, comparison := ">=" },
        { name := "Invoice Cycle Time (Days)", key := "invoice_cycle_time",
          target := 7, comparison := "<=" },
        { name := "Missed Billing Milestones", key := "missed_milestones",
          target := 0, comparison := "<=" } ]),
    ("quality",
      [ { name := "Invoice Error Rate %", key := "invoice_error_rate",
          target := 2, comparison := "<=" },
        { name := "Invoice Reissue Rate %", key := "invoice_reissue_rate",
          target := 3, comparison := "<=" },
        { name := "Disputed Invoice %", key := "disputed_invoice_pct",
          target := 5, comparison := "<=", priority := true },
        { name := "Dispute Resolution Days", key := "dispute_resolution_days",
          target := 10, comparison := "<=" } ]),
    ("coverage",
      [ { name := "Billing Coverage %", key := "billing_coverage_pct",
          target := 98, comparison := ">=", priority := true },
        { name := "Unbilled Revenue %", key := "unbilled_revenue_pct",
          target := 5, comparison := "<=", priority := true },
        { name := "Change Order Billing Rate %", key := "co_billing_rate",
          target := 95, comparison := ">=" },
        { name := "Advance Drawdown Rate %", key := "advance_drawdown_rate",
          target := 100, comparison := "<=" } ]),
    ("wip",
      [ { name := "WIP Aging (Days)", key := "wip_aging_days",
          target := 30, comparison := "<=", priority := true },
        { name := "Stale WIP % (>60 days)", key := "stale_wip_pct",
          target := 10, comparison := "<=" },
        { name := "WIP to Revenue Ratio", key := "wip_to_revenue_ratio",
          target := 1.0, comparison := "<=" } ]),
    ("collaboration",
      [ { name := "PM Approval Time (Days)", key := "pm_approval_days",
          target := 3, comparison := "<=" },
        { name := "Incomplete Billing Packages %", key := "incomplete_packages_pct",
          target := 5, comparison := "<=" },
        { name := "Late Cost Inputs %", key := "late_cost_inputs_pct",
          target := 5, comparison := "<=" } ]) ]

/-- All catalog entries, in category iteration order then within-category
order. -/
def allDefs : List KpiDef := (kpi_definitions.map Prod.snd).flatten

/-- Number of priority entries inside one category of the catalog. -/
def priorityCount (cat : String) : Nat :=
  (((kpi_definitions.lookup cat).getD []).filter (fun d => d.priority)).length

/-- The GM-focus subset assembled by `create_gm_summary_chart`
(source lines 285-299): for each category, the scan appends the first entry
with the priority flag and then breaks out of the inner loop, so each
category contributes its first priority entry, if any. -/
def gm_kpis : List KpiDef :=
  kpi_definitions.filterMap (fun p => p.2.find? (fun d => d.priority))

/-- The priority list assembled in `main` (source lines 438-442): every
priority entry across all categories, no break. -/
def priority_kpis : List KpiDef :=
  allDefs.filter (fun d => d.priority)

/-- The 26 required spreadsheet columns (source lines 99-108). -/
def required_columns : List String :=
  [ "Month", "Total_Invoices", "OnTime_Invoices", "Avg_Billing_Timeliness",
    "Avg_Invoice_Cycle_Time", "Planned_Milestones", "Invoiced_Milestones",
    "Corrected_Invoices", "Reissued_Invoices", "Disputed_Invoices",
    "Avg_Dispute_Resolution_Days", "Recognized_Revenue", "Invoiced_Amount",
    "CO_Approved", "CO_Invoiced", "Advance_Received", "Advance_Used",
    "WIP", "Avg_Daily_Billed_Revenue", "Old_WIP", "Monthly_Revenue",
    "Submitted_Packages", "Returned_Packages", "Avg_PM_Approval_Days",
    "Total_Cost_Reports", "Late_Cost_Reports" ]

/-- `validate_excel_data` (source lines 97-114): collects the required
columns absent from the sheet, in required-column order; returns
(is-valid, missing list). -/
def validate_excel_data (cols : List String) : Bool × List String :=
  let missing_columns := required_columns.filter (fun c => ! cols.contains c)
  if missing_columns.isEmpty then (true, []) else (false, missing_columns)

/-- An uploaded sheet: the column names present, and its rows (as parsed
records when the schema is complete). -/
structure UploadedTable where
  columns : List String
  rows : List MonthlyRecord

/-- Row ordering key used by the loader: ascending `Month`. -/
def monthLe (a b : MonthlyRecord) : Prop := a.month ≤ b.month

instance : DecidableRel monthLe :=
  fun a b => inferInstanceAs (Decidable (a.month ≤ b.month))

instance : IsTotal MonthlyRecord monthLe :=
  ⟨fun a b => le_total a.month b.month⟩

instance : IsTrans MonthlyRecord monthLe :=
  ⟨fun _ _ _ hab hbc => le_trans hab hbc⟩

/-- `load_data_from_excel` (source lines 116-141): validates the columns; on
failure surfaces the missing-column list and returns no table; on success
returns the rows sorted ascending by month. -/
def load_data_from_excel (t : UploadedTable) :
    Except DashboardError (List MonthlyRecord) :=
  let v := validate_excel_data t.columns
  if v.1 then Except.ok (List.insertionSort monthLe t.rows)
  else Except.error (DashboardError.schemaValidation v.2)

/-! ## Helper lemmas on the classifier -/

/-- Unfolding of `get_status` at the literal comparison string of the source. -/
theorem get_status_le_eq (v t : ℚ) :
    get_status v t "<=" =
      if v ≤ t then ("🟢", "success")
      else if v ≤ t * 1.1 then ("🟠", "warning")
      else ("🔴", "error") := by
  simp [get_status]

/-- Any comparison string other than the literal source string takes the
else branch of `get_status`. -/
theorem get_status_else_eq (v t : ℚ) (c : String) (hc : ¬ c = "<=") :
    get_status v t c = atLeastBranch v t := by
  simp only [get_status, atLeastBranch, if_neg hc]

/-- C2: with direction at-most (`"<="`), `get_status` is on-target iff
`value ≤ target`, near-target iff `target < value ≤ target * 1.1` and
off-target otherwise; with direction at-least (`">="`), on-target iff
`value ≥ target`, near-target iff `target * 0.9 ≤ value < target` and
off-target otherwise; and `value = target` is on-target in both
directions. -/
theorem get_status_bands (v t : ℚ) :
    (get_status v t "<=" = ("🟢", "success") ↔ v ≤ t) ∧
    (get_status v t "<=" = ("🟠", "warning") ↔ t < v ∧ v ≤ t * 1.1) ∧
    (get_status v t "<=" = ("🔴", "error") ↔
      ¬ v ≤ t ∧ ¬ (t < v ∧ v ≤ t * 1.1)) ∧
    (get_status v t ">=" = ("🟢", "success") ↔ t ≤ v) ∧
    (get_status v t ">=" = ("🟠", "warning") ↔ t * 0.9 ≤ v ∧ v < t) ∧
    (get_status v t ">=" = ("🔴", "error") ↔
      ¬ t ≤ v ∧ ¬ (t * 0.9 ≤ v ∧ v < t)) ∧
    get_status t t "<=" = ("🟢", "success") ∧
    get_status t t ">=" = ("🟢", "success") := by
  have hge : ∀ a b : ℚ, get_status a b ">=" = atLeastBranch a b :=
    fun a b => get_status_else_eq a b ">=" (by decide)
  refine ⟨?_, ?_, ?_, ?_, ?_, ?_, ?_, ?_⟩
  · rw [get_status_le_eq]
    split_ifs with h1 h2
    · simp [h1]
    · simp [h1]
    · simp [h1]
  · rw [get_status_le_eq]
    split_ifs with h1 h2
    · simp [not_lt.mpr h1]
    · simp [not_le.mp h1, h2]
    · simp [h2]
  · rw [get_status_le_eq]
    split_ifs with h1 h2
    · simp [h1]
    · simp [h1, h2, not_le.mp h1]
    · simp [h1, h2]
  · rw [hge]
    simp only [atLeastBranch, ge_iff_le]
    split_ifs with h1 h2
    · simp [h1]
    · simp [h1]
    · simp [h1]
  · rw [hge]
    simp only [atLeastBranch, ge_iff_le]
    split_ifs with h1 h2
    · simp [not_lt.mpr h1]
    · simp [not_le.mp h1, h2]
    · simp [h2]
  · rw [hge]
    simp only [atLeastBranch, ge_iff_le]
    split_ifs with h1 h2
    · simp [h1]
    · simp [h1, h2, not_le.mp h1]
    · simp [h1, h2]
  · rw [get_status_le_eq]
    simp
  · rw [hge]
    simp [atLeastBranch]

/-- C4 (counterexample to the claim as stated): at `target = 0` with
direction at-most, `value = 0` — the would-be single point of the
near-target band — classifies as on-target, not near-target, so the
near-target band is not the single point 0. -/
theorem get_status_zero_cex :
    get_status 0 0 "<=" = ("🟢", "success") ∧
    get_status 0 0 "<=" ≠ ("🟠", "warning") := by decide

/-- C4 (amended): at `target = 0` with direction at-most, no value at all
classifies near-target (the band is empty: `value ≤ 0` is on-target by the
tie-break, and every positive value is off-target). -/
theorem get_status_zero_target (v : ℚ) :
    get_status v 0 "<=" ≠ ("🟠", "warning") ∧
    (0 < v → get_status v 0 "<=" = ("🔴", "error")) ∧
    (v ≤ 0 → get_status v 0 "<=" = ("🟢", "success")) := by
  rw [get_status_le_eq]
  split_ifs with h1 h2
  · exact ⟨by decide, fun h0 => absurd h1 (not_le.mpr h0), fun _ => rfl⟩
  · exact absurd (by linarith : v ≤ 0) h1
  · exact ⟨by decide, fun _ => rfl, fun h => absurd h h1⟩

/-- Witness for C4's amended theorem at values 2 and -1. -/
theorem get_status_zero_target_witness :
    ((0 : ℚ) < 2 ∧ get_status 2 0 "<=" = ("🔴", "error")) ∧
    ((-1 : ℚ) ≤ 0 ∧ get_status (-1) 0 "<=" = ("🟢", "success")) :=
  ⟨⟨by norm_num, (get_status_zero_target 2).2.1 (by norm_num)⟩,
   ⟨by norm_num, (get_status_zero_target (-1)).2.2 (by norm_num)⟩⟩

/-- C9: `get_status` is total over the comparison string: it always returns
one of the three statuses, and any comparison other than the literal `"<="`
(including misspelled directions) is handled by the at-least else branch. -/
theorem get_status_total (v t : ℚ) (c : String) :
    (get_status v t c = ("🟢", "success") ∨
      get_status v t c = ("🟠", "warning") ∨
      get_status v t c = ("🔴", "error")) ∧
    (c ≠ "<=" → get_status v t c = atLeastBranch v t) := by
  constructor
  · simp only [get_status]
    split_ifs <;> simp
  · intro hc
    exact get_status_else_eq v t c hc

/-- Witness for C9 at an invalid direction string. -/
theorem get_status_total_witness :
    ("at-least" ≠ "<=") ∧ get_status 3 5 "at-least" = atLeastBranch 3 5 :=
  ⟨by decide, (get_status_total 3 5 "at-least").2 (by decide)⟩

/-! ## Catalog theorems -/

/-- C3 (counterexample to the claim as stated): the priority flags are not
one per category — the coverage category holds two priority definitions and
the collaboration category holds none. -/
theorem kpi_definitions_priority_cex :
    priorityCount "coverage" = 2 ∧ priorityCount "collaboration" = 0 := by
  decide

/-- C3 (amended): the catalog has exactly 18 definitions in exactly the 5
categories, exactly 5 of which are priority — but distributed as one each in
timeliness, quality and wip, two in coverage and none in collaboration. -/
theorem kpi_definitions_shape :
    kpi_definitions.map Prod.fst =
      ["timeliness", "quality", "coverage", "wip", "collaboration"] ∧
    allDefs.length = 18 ∧
    (allDefs.filter (fun d => d.priority)).length = 5 ∧
    priorityCount "timeliness" = 1 ∧
    priorityCount "quality" = 1 ∧
    priorityCount "coverage" = 2 ∧
    priorityCount "wip" = 1 ∧
    priorityCount "collaboration" = 0 := by
  decide

/-- C10: the GM-focus scan of `create_gm_summary_chart` takes at most the
first priority definition of each category, so the chart shows exactly 4
entries — `unbilled_revenue_pct` (coverage's second priority KPI) is omitted
and collaboration contributes none — while the priority list assembled in
`main` collects all 5 priority definitions. -/
theorem gm_kpis_shape :
    gm_kpis.map (fun d => d.key) =
      [ "billing_timeliness_days", "disputed_invoice_pct",
        "billing_coverage_pct", "wip_aging_days" ] ∧
    gm_kpis.length = 4 ∧
    (gm_kpis.map (fun d => d.key)).contains "unbilled_revenue_pct" = false ∧
    (gm_kpis.filter (fun d => d.key = "unbilled_revenue_pct")).length = 0 ∧
    kpi_definitions.all
      (fun p => ((p.2.find? (fun d => d.priority)).toList.length ≤ 1 : Bool)) = true ∧
    priority_kpis.length = 5 ∧
    priority_kpis.map (fun d => d.key) =
      [ "billing_timeliness_days", "disputed_invoice_pct",
        "billing_coverage_pct", "unbilled_revenue_pct", "wip_aging_days" ] := by
  decide

/-! ## Test fixtures (concrete rows and tables for witnesses) -/

/-- A concrete monthly record; `total_invoices = 50` and
`on_time_invoices = 47` follow the spec's worked example, every denominator
field is non-zero. -/
def baseRow : MonthlyRecord :=
  { month := 1
    total_invoices := 50
    on_time_invoices := 47
    avg_billing_timeliness := 4
    avg_invoice_cycle_time := 6
    planned_milestones := 6
    invoiced_milestones := 4
    corrected_invoices := 1
    reissued_invoices := 2
    disputed_invoices := 3
    avg_dispute_resolution_days := 8
    recognized_revenue := 200
    invoiced_amount := 150
    co_approved := 10
    co_invoiced := 9
    advance_received := 100
    advance_used := 40
    wip := 80
    avg_daily_billed_revenue := 4
    old_wip := 20
    monthly_revenue := 160
    submitted_packages := 25
    returned_packages := 5
    avg_pm_approval_days := 2
    total_cost_reports := 20
    late_cost_reports := 2 }

/-- A second concrete record with an earlier month, used to exercise the
loader's sort. -/
def earlierRow : MonthlyRecord := { baseRow with month := 0, total_invoices := 40 }

/-- An uploaded sheet with all 26 required columns and two rows out of month
order. -/
def unsortedTable : UploadedTable :=
  { columns := required_columns, rows := [baseRow, earlierRow] }

/-- An uploaded sheet missing exactly the `WIP` column. -/
def wipMissingTable : UploadedTable :=
  { columns := required_columns.erase "WIP", rows := [] }

instance {ε α : Type} [DecidableEq ε] [DecidableEq α] :
    DecidableEq (Except ε α) := fun a b =>
  match a, b with
  | Except.ok x, Except.ok y =>
    if h : x = y then Decidable.isTrue (by rw [h])
    else Decidable.isFalse (fun hc => h (Except.ok.inj hc))
  | Except.error x, Except.error y =>
    if h : x = y then Decidable.isTrue (by rw [h])
    else Decidable.isFalse (fun hc => h (Except.error.inj hc))
  | Except.ok _, Except.error _ =>
    Decidable.isFalse (fun hc => Except.noConfusion hc)
  | Except.error _, Except.ok _ =>
    Decidable.isFalse (fun hc => Except.noConfusion hc)

/-! ## Loader theorems -/

/-- Unfolding of the loader: it fails with the missing-column list exactly
when that list is non-empty, and otherwise returns the rows sorted by
month. -/
theorem load_eq (t : UploadedTable) :
    load_data_from_excel t =
      if (required_columns.filter (fun c => ! t.columns.contains c)).isEmpty
      then Except.ok (List.insertionSort monthLe t.rows)
      else Except.error (DashboardError.schemaValidation
        (required_columns.filter (fun c => ! t.columns.contains c))) := by
  simp only [load_data_from_excel, validate_excel_data]
  cases h : (required_columns.filter (fun c => ! t.columns.contains c)).isEmpty <;>
    simp [h]

/-- C5: when one or more required columns are absent, loading fails with a
schema-validation error carrying the list of all missing column names (every
absent required column is in the reported list), and no table is returned. -/
theorem load_rejects_missing (t : UploadedTable)
    (h : ∃ c ∈ required_columns, t.columns.contains c = false) :
    load_data_from_excel t =
      Except.error (DashboardError.schemaValidation
        (required_columns.filter (fun c => ! t.columns.contains c))) ∧
    (∀ c ∈ required_columns, t.columns.contains c = false →
      c ∈ required_columns.filter (fun c => ! t.columns.contains c)) ∧
    (∀ rows, ¬ load_data_from_excel t = Except.ok rows) := by
  obtain ⟨c0, hc0, hnc0⟩ := h
  have hmem : c0 ∈ required_columns.filter (fun c => ! t.columns.contains c) :=
    List.mem_filter.mpr ⟨hc0, by rw [hnc0]; rfl⟩
  have hE : (required_columns.filter (fun c => ! t.columns.contains c)).isEmpty
      = false := by
    have hnil := List.ne_nil_of_mem hmem
    simpa using hnil
  have herr : load_data_from_excel t =
      Except.error (DashboardError.schemaValidation
        (required_columns.filter (fun c => ! t.columns.contains c))) := by
    rw [load_eq, hE]
    simp
  refine ⟨herr, fun c hc hnc => List.mem_filter.mpr ⟨hc, by rw [hnc]; rfl⟩,
    fun rows hok => ?_⟩
  rw [herr] at hok
  exact Except.noConfusion hok

/-- Witness for C5: a sheet missing only the `WIP` column is rejected with a
schema-validation error whose missing list is exactly `["WIP"]`. -/
theorem load_rejects_missing_witness :
    ("WIP" ∈ required_columns ∧ wipMissingTable.columns.contains "WIP" = false) ∧
    load_data_from_excel wipMissingTable =
      Except.error (DashboardError.schemaValidation ["WIP"]) ∧
    "WIP" ∈ (["WIP"] : List String) := by
  have h := load_rejects_missing wipMissingTable ⟨"WIP", by decide, by decide⟩
  refine ⟨⟨by decide, by decide⟩, ?_, by decide⟩
  have hfil : required_columns.filter
      (fun c => ! wipMissingTable.columns.contains c) = ["WIP"] := by decide
  rw [h.1, hfil]

/-- C8: a successful load returns exactly the input rows (a permutation of
them) sorted ascending by month. -/
theorem load_sorts (t : UploadedTable) (out : List MonthlyRecord)
    (h : load_data_from_excel t = Except.ok out) :
    out.Perm t.rows ∧ List.Sorted monthLe out := by
  rw [load_eq] at h
  cases hE : (required_columns.filter (fun c => ! t.columns.contains c)).isEmpty with
  | false =>
    rw [hE] at h
    simp at h
  | true =>
    rw [hE] at h
    simp at h
    subst h
    exact ⟨List.perm_insertionSort monthLe t.rows,
      List.sorted_insertionSort monthLe t.rows⟩

/-- Witness for C8: loading a complete sheet whose two rows are out of month
order returns them reordered ascending by month. -/
theorem load_sorts_witness :
    load_data_from_excel unsortedTable = Except.ok [earlierRow, baseRow] ∧
    ([earlierRow, baseRow] : List MonthlyRecord).Perm unsortedTable.rows ∧
    List.Sorted monthLe [earlierRow, baseRow] := by
  have hld : load_data_from_excel unsortedTable = Except.ok [earlierRow, baseRow] := by
    decide
  exact ⟨hld, load_sorts unsortedTable [earlierRow, baseRow] hld⟩

/-! ## Computation-engine theorems -/

/-- `iloc` misses exactly outside the pandas positional range
`[-len, len)`. -/
theorem iloc_eq_none_iff (data : List MonthlyRecord) (i : Int) :
    iloc data i = none ↔
      (i < -(data.length : Int) ∨ (data.length : Int) ≤ i) := by
  unfold iloc
  split_ifs with h1 h2 <;> simp <;> omega

/-- `calculate_kpis` errors exactly when the row selection misses. -/
theorem calculate_kpis_eq_error_iff (data : List MonthlyRecord) (i : Int) :
    calculate_kpis data i = Except.error DashboardError.indexOutOfRange ↔
      iloc data i = none := by
  unfold calculate_kpis
  cases h : iloc data i <;> simp

/-- C6 (amended): `calculate_kpis` raises the index error exactly when
`month_idx` is outside the pandas positional range `[-len(table), len(table))`
(negative indices count from the end); in particular
`month_idx = len(table)` raises. -/
theorem calculate_kpis_range (data : List MonthlyRecord) (i : Int) :
    (calculate_kpis data i = Except.error DashboardError.indexOutOfRange ↔
      (i < -(data.length : Int) ∨ (data.length : Int) ≤ i)) ∧
    calculate_kpis data (data.length : Int) =
      Except.error DashboardError.indexOutOfRange := by
  refine ⟨(calculate_kpis_eq_error_iff data i).trans (iloc_eq_none_iff data i), ?_⟩
  rw [calculate_kpis_eq_error_iff, iloc_eq_none_iff]
  omega

/-- C6 (counterexample to the claim as stated): `month_idx = -1` is outside
`[0, len(table))`, yet on a one-row table `calculate_kpis` returns a result
(the last row's KPIs) instead of raising. -/
theorem calculate_kpis_neg_index_cex :
    ¬ (0 ≤ (-1 : Int)) ∧
    calculate_kpis [baseRow] (-1) = Except.ok (kpisOfRow baseRow) := by
  exact ⟨by decide, by rfl⟩

/-- C7: `calculate_kpis` is a deterministic function of the selected record
only — two calls whose selected rows are field-for-field equal return
identical KPI mappings (the embedding is a pure function, so no call mutates
the table or any other state). -/
theorem calculate_kpis_pure (d1 d2 : List MonthlyRecord) (i1 i2 : Int)
    (r : MonthlyRecord) (h1 : iloc d1 i1 = some r) (h2 : iloc d2 i2 = some r) :
    calculate_kpis d1 i1 = calculate_kpis d2 i2 := by
  unfold calculate_kpis
  rw [h1, h2]

/-- Witness for C7: the same row selected from two different tables at
different indices yields the same KPI mapping. -/
theorem calculate_kpis_pure_witness :
    iloc [baseRow] 0 = some baseRow ∧
    iloc [earlierRow, baseRow] 1 = some baseRow ∧
    calculate_kpis [baseRow] 0 = calculate_kpis [earlierRow, baseRow] 1 :=
  ⟨by decide, by decide,
    calculate_kpis_pure [baseRow] [earlierRow, baseRow] 0 1 baseRow
      (by decide) (by decide)⟩

/-- C1: for a valid month index (and denominators non-zero as the claim
assumes), `calculate_kpis` returns a mapping whose keys are exactly the 18
derivation keys, each value equal to the spec's derivation formula applied to
the selected row. -/
theorem calculate_kpis_formulas (data : List MonthlyRecord) (i : Int)
    (h0 : 0 ≤ i) (hlen : i < (data.length : Int))
    (row : MonthlyRecord) (hrow : iloc data i = some row)
    (ht : row.total_invoices ≠ 0) (hrr : row.recognized_revenue ≠ 0)
    (hco : row.co_approved ≠ 0) (hadv : row.advance_received ≠ 0)
    (hdr : row.avg_daily_billed_revenue ≠ 0) (hwip : row.wip ≠ 0)
    (hmr : row.monthly_revenue ≠ 0) (hsp : row.submitted_packages ≠ 0)
    (htc : row.total_cost_reports ≠ 0) :
    ∃ l, calculate_kpis data i = Except.ok l ∧
      l.map Prod.fst = kpiKeys ∧
      List.lookup "billing_timeliness_days" l = some row.avg_billing_timeliness ∧
      List.lookup "pct_invoices_on_time" l =
        some (row.on_time_invoices / row.total_invoices * 100) ∧
      List.lookup "invoice_cycle_time" l = some row.avg_invoice_cycle_time ∧
      List.lookup "missed_milestones" l =
        some (row.planned_milestones - row.invoiced_milestones) ∧
      List.lookup "invoice_error_rate" l =
        some (row.corrected_invoices / row.total_invoices * 100) ∧
      List.lookup "invoice_reissue_rate" l =
        some (row.reissued_invoices / row.total_invoices * 100) ∧
      List.lookup "disputed_invoice_pct" l =
        some (row.disputed_invoices / row.total_invoices * 100) ∧
      List.lookup "dispute_resolution_days" l =
        some row.avg_dispute_resolution_days ∧
      List.lookup "billing_coverage_pct" l =
        some (row.invoiced_amount / row.recognized_revenue * 100) ∧
      List.lookup "unbilled_revenue_pct" l =
        some ((row.recognized_revenue - row.invoiced_amount) /
          row.recognized_revenue * 100) ∧
      List.lookup "co_billing_rate" l =
        some (row.co_invoiced / row.co_approved * 100) ∧
      List.lookup "advance_drawdown_rate" l =
        some (row.advance_used / row.advance_received * 100) ∧
      List.lookup "wip_aging_days" l =
        some (row.wip / row.avg_daily_billed_revenue) ∧
      List.lookup "stale_wip_pct" l =
        some (row.old_wip / row.wip * 100) ∧
      List.lookup "wip_to_revenue_ratio" l =
        some (row.wip / row.monthly_revenue) ∧
      List.lookup "pm_approval_days" l = some row.avg_pm_approval_days ∧
      List.lookup "incomplete_packages_pct" l =
        some (row.returned_packages / row.submitted_packages * 100) ∧
      List.lookup "late_cost_inputs_pct" l =
        some (row.late_cost_reports / row.total_cost_reports * 100) := by
  refine ⟨kpisOfRow row, ?_, rfl, rfl, rfl, rfl, rfl, rfl, rfl, rfl, rfl, rfl,
    rfl, rfl, rfl, rfl, rfl, rfl, rfl, rfl, rfl⟩
  unfold calculate_kpis
  rw [hrow]

/-- Witness for C1: on the fixture row with `total_invoices = 50` and
`on_time_invoices = 47`, the returned mapping has the 18 keys and
`pct_invoices_on_time = 94`. -/
theorem calculate_kpis_formulas_witness :
    ((0 : Int) ≤ 0 ∧ (0 : Int) < (([baseRow] : List MonthlyRecord).length : Int) ∧
      baseRow.total_invoices ≠ 0) ∧
    ∃ l, calculate_kpis [baseRow] 0 = Except.ok l ∧
      l.map Prod.fst = kpiKeys ∧
      List.lookup "pct_invoices_on_time" l = some 94 ∧
      List.lookup "missed_milestones" l = some 2 := by
  obtain ⟨l, hok, hkeys, _, hpct, _, hmm, _⟩ :=
    calculate_kpis_formulas [baseRow] 0 (by decide) (by decide) baseRow
      (by decide) (by decide) (by decide) (by decide) (by decide) (by decide)
      (by decide) (by decide) (by decide) (by decide)
  refine ⟨⟨by decide, by decide, by decide⟩, l, hok, hkeys, ?_, ?_⟩
  · rw [hpct]
    norm_num [baseRow]
  · rw [hmm]
    norm_num [baseRow]
